import Mathlib

/-!
Shallow embedding of the telemetry façade in
`faidon_laboratory_logging/logger.py` (class `Logger`, dataclass `Config`,
class `DummySpan`).

Modelling conventions:
* Python dictionaries with string keys are association lists
  (`List (String × Value)`) with Python-dict update semantics: assigning to
  an existing key replaces its value in place, assigning to a fresh key
  appends at the end.
* Caller-supplied field values (`**fields`) are modelled by `Value`:
  strings, integers, booleans, `None`, and `obj`, an arbitrary Python object
  that `json.dumps` cannot serialize (on which `json.dumps` raises
  `TypeError`).  Exact floats are not representable here; none of the
  verified claims depends on float-valued fields.
* A Python attribute slot that may never have been assigned is `Attr α`:
  reading an unassigned slot raises `AttributeError`.
* Exceptions escaping a façade call are the `.error` case of `Except PyErr`.
* Network-telemetry side effects (counter adds, histogram records, real
  span creation/enrichment) are collected in a `List Effect`; an empty list
  means the call was a telemetry no-op.
* Failures of the external OpenTelemetry constructors during
  initialization are nondeterministic inputs, packaged as `InitEnv` flags:
  `resource_raises` is an exception out of `Resource.create` (caught by the
  outer handler in `_init_opentelemetry`), `tracing_raises` an exception
  inside the `try` of `_init_tracing`, `metrics_raises` one inside the
  `try` of `_init_metrics`.
* The ambient current span (`trace.get_current_span()`) is an input
  `Ambient`; `none` models a falsy span object, `some c` a span object
  whose `is_recording()` is `c.recording`.
-/

namespace FaidonLogging

/-- Caller-supplied field values as seen by `json.dumps`. -/
inductive Value where
  | str (s : String)
  | int (i : Int)
  | bool (b : Bool)
  | null
  | obj
  deriving DecidableEq, Repr

/-- Whether `json.dumps` can serialize the value (everything except an
arbitrary Python object). -/
def Value.serializable : Value → Bool
  | .obj => false
  | _ => true

/-- Python exceptions that the façade can let escape. -/
inductive PyErr where
  | typeError
  | attributeError
  deriving DecidableEq, Repr

/-- A Python attribute slot: `unset` = never assigned (reading raises
`AttributeError`), `val a` = currently holds `a`. -/
inductive Attr (α : Type) where
  | unset
  | val (a : α)
  deriving DecidableEq, Repr

/-- Reading a Python attribute: raises `AttributeError` when unset. -/
def Attr.read {α : Type} : Attr α → Except PyErr α
  | .unset => .error .attributeError
  | .val a => .ok a

/-- The dataclass `Config` of logger.py. -/
structure Config where
  service_name : String
  version : String
  environment : String
  alloy_url : Option String := none
  deriving DecidableEq, Repr

/-- Handles to external emitters: `none` models the Python value `None`
(falsy), `some ()` a live handle. Mirrors `self.tracer`,
`self.request_counter`, `self.request_duration`. -/
abbrev Handle := Option Unit

/-- The mutable state of a `Logger` instance: configuration copies, the
`initialized` flag, and the three emitter attribute slots. -/
structure Logger where
  service_name : String
  version : String
  environment : String
  initialized : Bool
  tracer : Attr Handle
  request_counter : Attr Handle
  request_duration : Attr Handle
  deriving DecidableEq, Repr

/-- Nondeterministic outcomes of the external OpenTelemetry constructors
during initialization. -/
structure InitEnv where
  resource_raises : Bool
  tracing_raises : Bool
  metrics_raises : Bool
  deriving DecidableEq, Repr

/-- Network-telemetry side effects of a façade call. -/
inductive Effect where
  | counterAdd (amount : Nat) (attrs : List (String × String))
  | histRecord (value : Rat) (attrs : List (String × String))
  | spanStart (operation : String)
  | spanSetAttributes (attrs : List (String × String))
  | spanEnd (operation : String)
  | spanAddEvent (event : String) (fields : List (String × Value))
  | spanSetAttribute (key value : String)
  deriving DecidableEq, Repr

/-- State of the ambient current span: `is_recording()` plus the two
context identifiers returned by `get_span_context()`. -/
structure SpanCtx where
  recording : Bool
  trace_id : Nat
  span_id : Nat
  deriving DecidableEq, Repr

/-- Result of `trace.get_current_span()`: `none` models a falsy span
object, `some c` a span object with context `c`. -/
structure Ambient where
  current : Option SpanCtx
  deriving DecidableEq, Repr

/-- The ambient context holds a recording span. -/
def Ambient.isRecording (amb : Ambient) : Bool :=
  match amb.current with
  | none => false
  | some c => c.recording

/-- Python dict assignment `d[k] = v`: replace in place when the key is
present, append otherwise. -/
def dictInsert (d : List (String × Value)) (k : String) (v : Value) :
    List (String × Value) :=
  if d.any (fun kv => kv.1 = k) then
    d.map (fun kv => if kv.1 = k then (k, v) else kv)
  else
    d ++ [(k, v)]

/-- Lookup in a Python dict (first entry with the key). -/
def dictLookup (d : List (String × Value)) (k : String) : Option Value :=
  match d with
  | [] => none
  | kv :: rest => if kv.1 = k then some kv.2 else dictLookup rest k

/-- Merging `**fields` into a dict literal: each binding is one dict
assignment, in order. -/
def dictMerge (d : List (String × Value)) (fields : List (String × Value)) :
    List (String × Value) :=
  fields.foldl (fun acc kv => dictInsert acc kv.1 kv.2) d

/-- Construction of the bare instance: the assignments at the top of
`Logger.__init__` before the `alloy_url` check (no emitter attribute is
assigned yet). -/
def Logger.bare (config : Config) : Logger :=
  { service_name := config.service_name
    version := config.version
    environment := config.environment
    initialized := false
    tracer := .unset
    request_counter := .unset
    request_duration := .unset }

/-- Diagnostic line printed by the `except` branch of `_init_tracing`. -/
def diagTracing : String := "Failed to initialize tracing"

/-- Diagnostic line printed by the `except` branch of `_init_metrics`. -/
def diagMetrics : String := "Failed to initialize metrics"

/-- Diagnostic line printed by the `except` branch of
`_init_opentelemetry`. -/
def diagOtel : String := "Failed to initialize OpenTelemetry"

/-- `Logger._init_tracing`: on success assigns a live tracer; any failure
is caught inside this method, prints one diagnostic line and assigns
`self.tracer = None`. -/
def Logger.init_tracing (s : Logger) (raises : Bool) : Logger × List String :=
  if raises then
    ({ s with tracer := .val none }, [diagTracing])
  else
    ({ s with tracer := .val (some ()) }, [])

/-- `Logger._init_metrics`: on success assigns live counter and histogram
handles; any failure is caught inside this method, prints one diagnostic
line and assigns both attributes to `None`. -/
def Logger.init_metrics (s : Logger) (raises : Bool) : Logger × List String :=
  if raises then
    ({ s with request_counter := .val none, request_duration := .val none },
      [diagMetrics])
  else
    ({ s with request_counter := .val (some ()), request_duration := .val (some ()) }, [])

/-- `Logger._init_opentelemetry`: resource creation, then `_init_tracing`,
then `_init_metrics`, then `self.initialized = True`.  Only an exception
from resource creation reaches this method's own handler, because the two
inner initializers catch their failures themselves. -/
def Logger.init_opentelemetry (s : Logger) (env : InitEnv) :
    Logger × List String :=
  if env.resource_raises then
    (s, [diagOtel])
  else
    let p1 := s.init_tracing env.tracing_raises
    let p2 := p1.1.init_metrics env.metrics_raises
    ({ p2.1 with initialized := true }, p1.2 ++ p2.2)

/-- `Logger.__init__`: store the configuration and attempt OpenTelemetry
initialization only when `alloy_url` is provided. -/
def Logger.init (config : Config) (env : InitEnv) : Logger × List String :=
  match config.alloy_url with
  | none => (Logger.bare config, [])
  | some _ => (Logger.bare config).init_opentelemetry env

/-- Lowercase hexadecimal digit character for `n < 16`. -/
def hexDigitChar (n : Nat) : Char :=
  if n < 10 then Char.ofNat (48 + n) else Char.ofNat (87 + n)

/-- Hexadecimal digit extraction with explicit fuel (structural, so that
concrete instances compute inside the kernel). -/
def toHexRevAux : Nat → Nat → List Char
  | 0, _ => []
  | fuel + 1, n =>
    if n = 0 then [] else hexDigitChar (n % 16) :: toHexRevAux fuel (n / 16)

/-- Hexadecimal digits of `n`, least significant first (empty for `0`). -/
def toHexRev (n : Nat) : List Char := toHexRevAux n n

theorem toHexRevAux_canon :
    ∀ (f : Nat), ∀ n, n ≤ f → toHexRevAux f n = toHexRev n := by
  intro f
  induction f using Nat.strong_induction_on with
  | _ f ih =>
    intro n h1
    rcases n with _ | m
    · cases f <;> rfl
    · rcases f with _ | g
      · exact absurd h1 (by omega)
      · have hdiv : (m + 1) / 16 < m + 1 :=
          Nat.div_lt_self (Nat.succ_pos m) (by norm_num)
        show (if m + 1 = 0 then []
          else hexDigitChar ((m + 1) % 16) :: toHexRevAux g ((m + 1) / 16))
          = toHexRev (m + 1)
        rw [if_neg (Nat.succ_ne_zero m), ih g (by omega) ((m + 1) / 16) (by omega)]
        show _ = toHexRevAux (m + 1) (m + 1)
        show _ = (if m + 1 = 0 then []
          else hexDigitChar ((m + 1) % 16) :: toHexRevAux m ((m + 1) / 16))
        rw [if_neg (Nat.succ_ne_zero m)]
        congr 1
        exact (ih m (by omega) ((m + 1) / 16) (by omega)).symm

/-- Unfolding equation for `toHexRev`. -/
theorem toHexRev_eq (n : Nat) :
    toHexRev n = if n = 0 then []
      else hexDigitChar (n % 16) :: toHexRev (n / 16) := by
  by_cases h0 : n = 0
  · subst h0; rfl
  · rcases n with _ | m
    · exact absurd rfl h0
    · rw [if_neg h0]
      show (if m + 1 = 0 then []
        else hexDigitChar ((m + 1) % 16) :: toHexRevAux m ((m + 1) / 16)) = _
      rw [if_neg h0]
      congr 1
      have hdiv : (m + 1) / 16 < m + 1 :=
        Nat.div_lt_self (Nat.succ_pos m) (by norm_num)
      exact toHexRevAux_canon m ((m + 1) / 16) (by omega)

/-- Left-pad a digit list with zeros to width `w`. -/
def padZeros (w : Nat) (ds : List Char) : List Char :=
  List.replicate (w - ds.length) '0' ++ ds

/-- Python `format(n, '0<w>x')`: lowercase hexadecimal, zero-padded to at
least `w` characters. -/
def pyFormatHex (w : Nat) (n : Nat) : String :=
  String.mk (padZeros w (toHexRev n).reverse)

/-- Decimal digit character for `n < 10`. -/
def decDigitChar (n : Nat) : Char := Char.ofNat (48 + n)

/-- Decimal digit extraction with explicit fuel (structural, so that
concrete instances compute inside the kernel). -/
def toDecRevAux : Nat → Nat → List Char
  | 0, _ => []
  | fuel + 1, n =>
    if n = 0 then [] else decDigitChar (n % 10) :: toDecRevAux fuel (n / 10)

/-- Decimal digits of `n`, least significant first (empty for `0`). -/
def toDecRev (n : Nat) : List Char := toDecRevAux n n

theorem toDecRevAux_canon :
    ∀ (f : Nat), ∀ n, n ≤ f → toDecRevAux f n = toDecRev n := by
  intro f
  induction f using Nat.strong_induction_on with
  | _ f ih =>
    intro n h1
    rcases n with _ | m
    · cases f <;> rfl
    · rcases f with _ | g
      · exact absurd h1 (by omega)
      · have hdiv : (m + 1) / 10 < m + 1 :=
          Nat.div_lt_self (Nat.succ_pos m) (by norm_num)
        show (if m + 1 = 0 then []
          else decDigitChar ((m + 1) % 10) :: toDecRevAux g ((m + 1) / 10))
          = toDecRev (m + 1)
        rw [if_neg (Nat.succ_ne_zero m), ih g (by omega) ((m + 1) / 10) (by omega)]
        show _ = toDecRevAux (m + 1) (m + 1)
        show _ = (if m + 1 = 0 then []
          else decDigitChar ((m + 1) % 10) :: toDecRevAux m ((m + 1) / 10))
        rw [if_neg (Nat.succ_ne_zero m)]
        congr 1
        exact (ih m (by omega) ((m + 1) / 10) (by omega)).symm

/-- Unfolding equation for `toDecRev`. -/
theorem toDecRev_eq (n : Nat) :
    toDecRev n = if n = 0 then []
      else decDigitChar (n % 10) :: toDecRev (n / 10) := by
  by_cases h0 : n = 0
  · subst h0; rfl
  · rcases n with _ | m
    · exact absurd rfl h0
    · rw [if_neg h0]
      show (if m + 1 = 0 then []
        else decDigitChar ((m + 1) % 10) :: toDecRevAux m ((m + 1) / 10)) = _
      rw [if_neg h0]
      congr 1
      have hdiv : (m + 1) / 10 < m + 1 :=
        Nat.div_lt_self (Nat.succ_pos m) (by norm_num)
      exact toDecRevAux_canon m ((m + 1) / 10) (by omega)

/-- Decimal rendering of a natural number, as Python `str`. -/
def natDecChars (n : Nat) : List Char :=
  if n = 0 then ['0'] else (toDecRev n).reverse

/-- Decimal rendering of an integer, as Python `str`. -/
def intDecChars (i : Int) : List Char :=
  if i < 0 then '-' :: natDecChars i.natAbs else natDecChars i.toNat

/-- A broken-down UTC time as returned by `time.gmtime()`. -/
structure Tm where
  year : Nat
  month : Nat
  mday : Nat
  hour : Nat
  minute : Nat
  sec : Nat
  deriving DecidableEq, Repr

/-- Zero-padded two-digit decimal field. -/
def pad2 (n : Nat) : List Char := padZeros 2 (natDecChars n)

/-- Zero-padded four-digit decimal field. -/
def pad4 (n : Nat) : List Char := padZeros 4 (natDecChars n)

/-- Python `time.strftime("%Y-%m-%dT%H:%M:%SZ", time.gmtime())` on the
broken-down time. -/
def strftimeISO (t : Tm) : String :=
  String.mk (pad4 t.year ++ '-' :: pad2 t.month ++ '-' :: pad2 t.mday ++
    'T' :: pad2 t.hour ++ ':' :: pad2 t.minute ++ ':' :: pad2 t.sec ++ ['Z'])

/-- JSON `\uXXXX` escape of a code unit. -/
def uEscape (n : Nat) : List Char :=
  ['\\', 'u', hexDigitChar (n / 4096 % 16), hexDigitChar (n / 256 % 16),
    hexDigitChar (n / 16 % 16), hexDigitChar (n % 16)]

/-- How `json.dumps` (with its default `ensure_ascii=True`) renders one
character inside a string literal: named escapes for the common control
characters, `\uXXXX` (with a surrogate pair beyond the BMP) for other
control and all non-ASCII characters, the character itself otherwise. -/
def escapeChar (c : Char) : List Char :=
  if c = '"' then ['\\', '"']
  else if c = '\\' then ['\\', '\\']
  else if c = '\n' then ['\\', 'n']
  else if c = '\t' then ['\\', 't']
  else if c = '\r' then ['\\', 'r']
  else if c.toNat = 8 then ['\\', 'b']
  else if c.toNat = 12 then ['\\', 'f']
  else if c.toNat < 32 ∨ 127 ≤ c.toNat then
    if c.toNat < 65536 then uEscape c.toNat
    else uEscape (55296 + (c.toNat - 65536) / 1024) ++
      uEscape (56320 + (c.toNat - 65536) % 1024)
  else [c]

/-- JSON string-literal escaping of a character sequence. -/
def escapeList (cs : List Char) : List Char :=
  cs.foldr (fun c acc => escapeChar c ++ acc) []

/-- How `json.dumps` renders one value (the `.obj` case is unreachable:
serialization raises before rendering it). -/
def Value.render : Value → List Char
  | .str s => '"' :: (escapeList s.data ++ ['"'])
  | .int i => intDecChars i
  | .bool true => ['t', 'r', 'u', 'e']
  | .bool false => ['f', 'a', 'l', 's', 'e']
  | .null => ['n', 'u', 'l', 'l']
  | .obj => []

/-- One `"key": value` entry of a JSON object. -/
def renderEntry (kv : String × Value) : List Char :=
  '"' :: (escapeList kv.1.data ++ '"' :: ':' :: ' ' :: kv.2.render)

/-- Join with the default `json.dumps` item separator `", "`. -/
def joinComma : List (List Char) → List Char
  | [] => []
  | [x] => x
  | x :: y :: xs => x ++ ',' :: ' ' :: joinComma (y :: xs)

/-- Characters of the JSON object rendering of a dict. -/
def renderObjChars (d : List (String × Value)) : List Char :=
  '{' :: (joinComma (d.map renderEntry) ++ ['}'])

/-- `json.dumps` on a dict with string keys: raises `TypeError` when some
value is not JSON-serializable, otherwise returns the rendered object. -/
def jsonDumps (d : List (String × Value)) : Except PyErr String :=
  if d.all (fun kv => kv.2.serializable) then
    .ok (String.mk (renderObjChars d))
  else
    .error .typeError

/-- The dict literal at the top of `Logger._log`, before `**fields` is
merged: the six base keys, in source order. -/
def Logger.baseRecord (s : Logger) (tm : Tm) (level message : String) :
    List (String × Value) :=
  [("timestamp", .str (strftimeISO tm)), ("level", .str level),
    ("message", .str message), ("service", .str s.service_name),
    ("version", .str s.version), ("environment", .str s.environment)]

/-- The fully assembled `log_data` dict of `Logger._log`: base keys, then
`**fields`, then `trace_id`/`span_id` when `self.initialized` and the
ambient current span is truthy and recording. -/
def Logger.buildRecord (s : Logger) (tm : Tm) (level message : String)
    (fields : List (String × Value)) (amb : Ambient) :
    List (String × Value) :=
  let d := dictMerge (s.baseRecord tm level message) fields
  if s.initialized then
    match amb.current with
    | some c =>
      if c.recording then
        dictInsert (dictInsert d "trace_id" (.str (pyFormatHex 32 c.trace_id)))
          "span_id" (.str (pyFormatHex 16 c.span_id))
      else d
    | none => d
  else d

/-- `Logger._log`: assemble `log_data` and print one `json.dumps` line to
standard output; the returned list is the lines written, and a
serialization failure escapes as the exception. -/
def Logger.logLine (s : Logger) (tm : Tm) (level message : String)
    (fields : List (String × Value)) (amb : Ambient) :
    Except PyErr (List String) :=
  match jsonDumps (s.buildRecord tm level message fields amb) with
  | .error e => .error e
  | .ok line => .ok [line]

/-- `Logger.info`. -/
def Logger.info (s : Logger) (tm : Tm) (message : String)
    (fields : List (String × Value)) (amb : Ambient) :
    Except PyErr (List String) :=
  s.logLine tm "INFO" message fields amb

/-- `Logger.warn`. -/
def Logger.warn (s : Logger) (tm : Tm) (message : String)
    (fields : List (String × Value)) (amb : Ambient) :
    Except PyErr (List String) :=
  s.logLine tm "WARN" message fields amb

/-- `Logger.debug`. -/
def Logger.debug (s : Logger) (tm : Tm) (message : String)
    (fields : List (String × Value)) (amb : Ambient) :
    Except PyErr (List String) :=
  s.logLine tm "DEBUG" message fields amb

/-- `Logger.error`: `fields["error"] = str(error)` then `_log("ERROR", ...)`;
`err` is the already-stringified exception `str(error)`. -/
def Logger.error (s : Logger) (tm : Tm) (message : String) (err : String)
    (fields : List (String × Value)) (amb : Ambient) :
    Except PyErr (List String) :=
  s.logLine tm "ERROR" message (dictInsert fields "error" (.str err)) amb

/-- `Logger.count_request`: guarded by `self.initialized and
self.request_counter`; when both truthy adds `1` to the counter with the
three dimensions. -/
def Logger.count_request (s : Logger) (endpoint : String)
    (status_code : Int) : Except PyErr (List Effect) :=
  if s.initialized then
    match s.request_counter.read with
    | .error e => .error e
    | .ok none => .ok []
    | .ok (some _) =>
      .ok [.counterAdd 1 [("endpoint", endpoint),
        ("status_code", toString status_code), ("service", s.service_name)]]
  else .ok []

/-- `Logger.record_duration`: guarded by `self.initialized and
self.request_duration`; float durations are modelled as rationals, the
code only passes the value through. -/
def Logger.record_duration (s : Logger) (endpoint : String)
    (duration_seconds : Rat) : Except PyErr (List Effect) :=
  if s.initialized then
    match s.request_duration.read with
    | .error e => .error e
    | .ok none => .ok []
    | .ok (some _) =>
      .ok [.histRecord duration_seconds
        [("endpoint", endpoint), ("service", s.service_name)]]
  else .ok []

/-- A span as returned by `start_span`: either a real SDK span carrying
its set attributes, or the fallback `DummySpan`. -/
inductive Span where
  | real (operation : String) (attrs : List (String × String))
  | dummy
  deriving DecidableEq, Repr

/-- `Logger.start_span`: guarded by `self.initialized and self.tracer`;
when both truthy starts a real span and sets the three attributes on it,
otherwise returns `DummySpan()`. -/
def Logger.start_span (s : Logger) (operation : String) :
    Except PyErr (Span × List Effect) :=
  if s.initialized then
    match s.tracer.read with
    | .error e => .error e
    | .ok none => .ok (.dummy, [])
    | .ok (some _) =>
      let attrs := [("service", s.service_name), ("version", s.version),
        ("environment", s.environment)]
      .ok (.real operation attrs, [.spanStart operation,
        .spanSetAttributes attrs])
  else .ok (.dummy, [])

/-- `Logger.add_span_event`: attaches the event to the ambient current
span when initialized and that span is truthy and recording. -/
def Logger.add_span_event (s : Logger) (event : String)
    (fields : List (String × Value)) (amb : Ambient) :
    Except PyErr (List Effect) :=
  if s.initialized then
    match amb.current with
    | none => .ok []
    | some c => if c.recording then .ok [.spanAddEvent event fields] else .ok []
  else .ok []

/-- `Logger.add_span_attribute`: sets the attribute on the ambient current
span when initialized and that span is truthy and recording. -/
def Logger.add_span_attribute (s : Logger) (key value : String)
    (amb : Ambient) : Except PyErr (List Effect) :=
  if s.initialized then
    match amb.current with
    | none => .ok []
    | some c => if c.recording then .ok [.spanSetAttribute key value] else .ok []
  else .ok []

/-- Entering a span with `with ... as span`: `__enter__` returns the span
itself for both variants (the SDK span and `DummySpan.__enter__`). -/
def Span.enter (sp : Span) : Span := sp

/-- Effects of `__exit__`: a real SDK span ends (and so is reported
upstream); `DummySpan.__exit__` does nothing. -/
def Span.exitEffects : Span → List Effect
  | .real operation _ => [.spanEnd operation]
  | .dummy => []

/-- Semantics of Python `with sp as x: body`: enter, run the body, and run
`__exit__` on both normal and exceptional termination (neither variant
suppresses the exception, so a failing body's exception propagates after
exit). -/
def pyWith {α : Type} (sp : Span) (body : Span → Except PyErr α) :
    Except PyErr α × List Effect :=
  match body sp.enter with
  | .ok a => (.ok a, sp.exitEffects)
  | .error e => (.error e, sp.exitEffects)

/-- Keys of a dict, in order. -/
def dictKeys (d : List (String × Value)) : List String := d.map Prod.fst

/-- The six keys the façade itself puts into every log record. -/
def baseKeys : List String :=
  ["timestamp", "level", "message", "service", "version", "environment"]

/-- Lowercase hexadecimal character class. -/
def isHexLower (c : Char) : Bool :=
  (decide ('0' ≤ c) && decide (c ≤ '9')) || (decide ('a' ≤ c) && decide (c ≤ 'f'))

/-- The trace emitter handle is live (a real tracer was installed; in the
process this is also the only way a recording span can come to exist). -/
def Logger.realTracer (s : Logger) : Prop := s.tracer = .val (some ())

/-- An ambient context is producible for a logger state only if any
recording span implies the logger installed a real tracer: the façade is
the sole component of the repository that configures a tracer provider. -/
def reachableAmbient (s : Logger) (amb : Ambient) : Prop :=
  amb.isRecording = true → s.realTracer

/-- All values of a dict are JSON-serializable. -/
def allSerializable (d : List (String × Value)) : Bool :=
  d.all (fun kv => kv.2.serializable)

section DictLemmas

theorem lookup_replace_of_any (d : List (String × Value)) (k : String)
    (v : Value) (h : d.any (fun kv => kv.1 = k) = true) :
    dictLookup (d.map (fun kv => if kv.1 = k then (k, v) else kv)) k
      = some v := by
  induction d with
  | nil => simp at h
  | cons kv rest ih =>
    by_cases hk : kv.1 = k
    · simp [dictLookup, hk]
    · have h' : rest.any (fun kv => kv.1 = k) = true := by
        simpa [List.any_cons, hk] using h
      simp [dictLookup, hk, ih h']

theorem lookup_append_single (d : List (String × Value)) (k : String)
    (v : Value) :
    dictLookup (d ++ [(k, v)]) k = some v ∨
      (∃ kv ∈ d, kv.1 = k) := by
  induction d with
  | nil => left; simp [dictLookup]
  | cons kv rest ih =>
    by_cases hk : kv.1 = k
    · right; exact ⟨kv, by simp, hk⟩
    · rcases ih with h | ⟨kv', hkv', hk'⟩
      · left; simpa [dictLookup, hk] using h
      · right; exact ⟨kv', by simp [hkv'], hk'⟩

theorem dictLookup_dictInsert_self (d : List (String × Value)) (k : String)
    (v : Value) : dictLookup (dictInsert d k v) k = some v := by
  unfold dictInsert
  by_cases h : d.any (fun kv => kv.1 = k) = true
  · rw [if_pos h]; exact lookup_replace_of_any d k v h
  · rw [if_neg h]
    rcases lookup_append_single d k v with h' | ⟨kv, hkv, hk⟩
    · exact h'
    · exact absurd (List.any_eq_true.2 ⟨kv, hkv, by simp [hk]⟩) h

theorem lookup_replace_ne (d : List (String × Value)) (k k' : String)
    (v : Value) (h : k' ≠ k) :
    dictLookup (d.map (fun kv => if kv.1 = k then (k, v) else kv)) k'
      = dictLookup d k' := by
  induction d with
  | nil => rfl
  | cons kv rest ih =>
    by_cases hk : kv.1 = k
    · simp [dictLookup, hk, Ne.symm h, ih]
    · simp [dictLookup, hk, ih]

theorem lookup_append_ne (d : List (String × Value)) (k k' : String)
    (v : Value) (h : k' ≠ k) :
    dictLookup (d ++ [(k, v)]) k' = dictLookup d k' := by
  induction d with
  | nil => simp [dictLookup, Ne.symm h]
  | cons kv rest ih =>
    by_cases hk : kv.1 = k'
    · simp [dictLookup, hk]
    · simp [dictLookup, hk, ih]

theorem dictLookup_dictInsert_ne (d : List (String × Value))
    (k k' : String) (v : Value) (h : k' ≠ k) :
    dictLookup (dictInsert d k v) k' = dictLookup d k' := by
  unfold dictInsert
  split
  · exact lookup_replace_ne d k k' v h
  · exact lookup_append_ne d k k' v h

theorem mem_dictKeys_dictInsert (d : List (String × Value)) (k k' : String)
    (v : Value) :
    k' ∈ dictKeys (dictInsert d k v) ↔ k' ∈ dictKeys d ∨ k' = k := by
  unfold dictInsert dictKeys
  by_cases h : d.any (fun kv => kv.1 = k) = true
  · rw [if_pos h]
    rcases List.any_eq_true.1 h with ⟨kv₀, hkv₀, hk₀⟩
    simp only [decide_eq_true_eq] at hk₀
    simp only [List.map_map, List.mem_map, Function.comp]
    constructor
    · rintro ⟨kv, hkv, hfst⟩
      by_cases hk : kv.1 = k
      · right; rw [if_pos hk] at hfst; exact hfst.symm
      · left; rw [if_neg hk] at hfst; exact ⟨kv, hkv, hfst⟩
    · rintro (⟨kv, hkv, hfst⟩ | rfl)
      · by_cases hk : kv.1 = k
        · subst hfst
          exact ⟨kv₀, hkv₀, by simp [hk₀, hk]⟩
        · exact ⟨kv, hkv, by rw [if_neg hk]; exact hfst⟩
      · exact ⟨kv₀, hkv₀, by simp [hk₀]⟩
  · rw [if_neg h]
    simp [List.mem_map, or_comm]

theorem mem_dictKeys_dictMerge (d : List (String × Value))
    (fs : List (String × Value)) (k : String) :
    k ∈ dictKeys (dictMerge d fs) ↔
      k ∈ dictKeys d ∨ k ∈ fs.map Prod.fst := by
  induction fs generalizing d with
  | nil => simp [dictMerge]
  | cons kv rest ih =>
    have : dictMerge d (kv :: rest) = dictMerge (dictInsert d kv.1 kv.2) rest := rfl
    rw [this, ih, mem_dictKeys_dictInsert]
    simp [or_assoc, or_comm, or_left_comm]

theorem dictLookup_dictMerge_not_mem (d : List (String × Value))
    (fs : List (String × Value)) (k : String)
    (h : k ∉ fs.map Prod.fst) :
    dictLookup (dictMerge d fs) k = dictLookup d k := by
  induction fs generalizing d with
  | nil => rfl
  | cons kv rest ih =>
    have hne : k ≠ kv.1 := by
      intro hk; exact h (by simp [hk])
    have hrest : k ∉ rest.map Prod.fst := by
      intro hk; exact h (by simp [hk])
    have : dictMerge d (kv :: rest) = dictMerge (dictInsert d kv.1 kv.2) rest := rfl
    rw [this, ih _ hrest, dictLookup_dictInsert_ne _ _ _ _ hne]

theorem dictLookup_dictMerge_mem (d : List (String × Value))
    (fs : List (String × Value)) (k : String) (v : Value)
    (hnd : (fs.map Prod.fst).Nodup) (hmem : (k, v) ∈ fs) :
    dictLookup (dictMerge d fs) k = some v := by
  induction fs generalizing d with
  | nil => simp at hmem
  | cons kv rest ih =>
    have hstep : dictMerge d (kv :: rest) = dictMerge (dictInsert d kv.1 kv.2) rest := rfl
    rcases List.mem_cons.1 hmem with rfl | hmem'
    · have hnot : k ∉ rest.map Prod.fst := by
        have := hnd
        simp only [List.map_cons, List.nodup_cons] at this
        exact this.1
      rw [hstep, dictLookup_dictMerge_not_mem _ _ _ hnot,
        dictLookup_dictInsert_self]
    · have hnd' : (rest.map Prod.fst).Nodup := by
        simp only [List.map_cons, List.nodup_cons] at hnd
        exact hnd.2
      rw [hstep]; exact ih (dictInsert d kv.1 kv.2) hnd' hmem'

theorem allSerializable_dictInsert (d : List (String × Value)) (k : String)
    (v : Value) (hd : allSerializable d = true) (hv : v.serializable = true) :
    allSerializable (dictInsert d k v) = true := by
  unfold allSerializable at *
  unfold dictInsert
  split
  · rw [List.all_eq_true] at hd ⊢
    intro kv hkv
    rcases List.mem_map.1 hkv with ⟨kv₀, hkv₀, rfl⟩
    by_cases hk : kv₀.1 = k
    · simpa [hk] using hv
    · simpa [hk] using hd kv₀ hkv₀
  · simp [List.all_append, hd, hv]

theorem allSerializable_dictMerge (d : List (String × Value))
    (fs : List (String × Value)) (hd : allSerializable d = true)
    (hf : allSerializable fs = true) :
    allSerializable (dictMerge d fs) = true := by
  induction fs generalizing d with
  | nil => exact hd
  | cons kv rest ih =>
    have hstep : dictMerge d (kv :: rest) = dictMerge (dictInsert d kv.1 kv.2) rest := rfl
    have hkv : kv.2.serializable = true := by
      have := hf; unfold allSerializable at this
      simp [List.all_cons] at this; exact this.1
    have hrest : allSerializable rest = true := by
      have := hf; unfold allSerializable at this
      simp [List.all_cons] at this
      unfold allSerializable
      exact List.all_eq_true.2 fun kv hm => this.2 kv.1 kv.2 hm
    rw [hstep]
    exact ih (dictInsert d kv.1 kv.2) (allSerializable_dictInsert d kv.1 kv.2 hd hkv) hrest

end DictLemmas

section HexLemmas

theorem hexDigitChar_isHexLower : ∀ n, n < 16 → isHexLower (hexDigitChar n) = true := by
  decide

theorem hexDigitChar_ne_newline : ∀ n, n < 16 → hexDigitChar n ≠ '\n' := by
  decide

theorem toHexRev_length (k : Nat) : ∀ n, n < 16 ^ k → (toHexRev n).length ≤ k := by
  induction k with
  | zero =>
    intro n h
    have h0 : n = 0 := Nat.lt_one_iff.1 (by simpa using h)
    subst h0
    rw [toHexRev_eq]; simp
  | succ k ih =>
    intro n h
    rw [toHexRev_eq]
    split
    · simp
    · case isFalse h0 =>
      simp only [List.length_cons]
      have hdiv : n / 16 < 16 ^ k := by
        rw [Nat.div_lt_iff_lt_mul (by norm_num)]
        calc n < 16 ^ (k + 1) := h
          _ = 16 ^ k * 16 := by rw [pow_succ]
      exact Nat.succ_le_succ (ih _ hdiv)

theorem toHexRev_chars (n : Nat) : ∀ c ∈ toHexRev n, isHexLower c = true := by
  induction n using Nat.strong_induction_on with
  | _ n ih =>
    intro c hc
    rw [toHexRev_eq] at hc
    split at hc
    · simp at hc
    · case isFalse h0 =>
      rcases List.mem_cons.1 hc with rfl | hc'
      · exact hexDigitChar_isHexLower _ (Nat.mod_lt _ (by norm_num))
      · exact ih (n / 16) (Nat.div_lt_self (Nat.pos_of_ne_zero h0) (by norm_num)) c hc'

theorem padZeros_length (w : Nat) (ds : List Char) (h : ds.length ≤ w) :
    (padZeros w ds).length = w := by
  simp [padZeros, Nat.sub_add_cancel h]

theorem padZeros_chars (w : Nat) (ds : List Char)
    (hds : ∀ c ∈ ds, isHexLower c = true) :
    ∀ c ∈ padZeros w ds, isHexLower c = true := by
  intro c hc
  rcases List.mem_append.1 hc with hc | hc
  · have := List.eq_of_mem_replicate hc
    subst this; decide
  · exact hds c hc

theorem pyFormatHex_length (w n : Nat) (h : n < 16 ^ w) :
    (pyFormatHex w n).length = w := by
  have hlen : (toHexRev n).reverse.length ≤ w := by
    simpa using toHexRev_length w n h
  show (padZeros w (toHexRev n).reverse).length = w
  exact padZeros_length w _ hlen

theorem pyFormatHex_chars (w n : Nat) :
    ∀ c ∈ (pyFormatHex w n).data, isHexLower c = true := by
  intro c hc
  have hc' : c ∈ padZeros w (toHexRev n).reverse := hc
  exact padZeros_chars w _
    (fun c hcm => toHexRev_chars n c (List.mem_reverse.1 hcm)) c hc'

theorem decDigitChar_ne_newline : ∀ n, n < 10 → decDigitChar n ≠ '\n' := by
  decide

theorem toDecRev_length (k : Nat) : ∀ n, n < 10 ^ k → (toDecRev n).length ≤ k := by
  induction k with
  | zero =>
    intro n h
    have h0 : n = 0 := Nat.lt_one_iff.1 (by simpa using h)
    subst h0
    rw [toDecRev_eq]; simp
  | succ k ih =>
    intro n h
    rw [toDecRev_eq]
    split
    · simp
    · case isFalse h0 =>
      simp only [List.length_cons]
      have hdiv : n / 10 < 10 ^ k := by
        rw [Nat.div_lt_iff_lt_mul (by norm_num)]
        calc n < 10 ^ (k + 1) := h
          _ = 10 ^ k * 10 := by rw [pow_succ]
      exact Nat.succ_le_succ (ih _ hdiv)

theorem toDecRev_no_newline (n : Nat) : ∀ c ∈ toDecRev n, c ≠ '\n' := by
  induction n using Nat.strong_induction_on with
  | _ n ih =>
    intro c hc
    rw [toDecRev_eq] at hc
    split at hc
    · simp at hc
    · case isFalse h0 =>
      rcases List.mem_cons.1 hc with rfl | hc'
      · exact decDigitChar_ne_newline _ (Nat.mod_lt _ (by norm_num))
      · exact ih (n / 10) (Nat.div_lt_self (Nat.pos_of_ne_zero h0) (by norm_num)) c hc'

theorem natDecChars_length (k : Nat) (hk : 1 ≤ k) (n : Nat) (h : n < 10 ^ k) :
    (natDecChars n).length ≤ k := by
  unfold natDecChars
  split
  · simpa using hk
  · simpa using toDecRev_length k n h

theorem natDecChars_no_newline (n : Nat) : ∀ c ∈ natDecChars n, c ≠ '\n' := by
  intro c hc
  unfold natDecChars at hc
  split at hc
  · rcases List.mem_singleton.1 hc with rfl; decide
  · exact toDecRev_no_newline n c (List.mem_reverse.1 hc)

theorem intDecChars_no_newline (i : Int) : ∀ c ∈ intDecChars i, c ≠ '\n' := by
  intro c hc
  unfold intDecChars at hc
  split at hc
  · rcases List.mem_cons.1 hc with rfl | hc'
    · decide
    · exact natDecChars_no_newline _ c hc'
  · exact natDecChars_no_newline _ c hc

end HexLemmas

section TimeLemmas

theorem padZeros_no_newline (w : Nat) (ds : List Char)
    (hds : ∀ c ∈ ds, c ≠ '\n') : ∀ c ∈ padZeros w ds, c ≠ '\n' := by
  intro c hc
  rcases List.mem_append.1 hc with hc | hc
  · have := List.eq_of_mem_replicate hc
    subst this; decide
  · exact hds c hc

theorem strftimeISO_length (t : Tm) (hy : t.year < 10000) (hmo : t.month < 100)
    (hd : t.mday < 100) (hh : t.hour < 100) (hmi : t.minute < 100)
    (hs : t.sec < 100) : (strftimeISO t).length = 20 := by
  have l4 : (pad4 t.year).length = 4 :=
    padZeros_length 4 _ (natDecChars_length 4 (by norm_num) _ (by norm_num; omega))
  have l2a : (pad2 t.month).length = 2 :=
    padZeros_length 2 _ (natDecChars_length 2 (by norm_num) _ (by norm_num; omega))
  have l2b : (pad2 t.mday).length = 2 :=
    padZeros_length 2 _ (natDecChars_length 2 (by norm_num) _ (by norm_num; omega))
  have l2c : (pad2 t.hour).length = 2 :=
    padZeros_length 2 _ (natDecChars_length 2 (by norm_num) _ (by norm_num; omega))
  have l2d : (pad2 t.minute).length = 2 :=
    padZeros_length 2 _ (natDecChars_length 2 (by norm_num) _ (by norm_num; omega))
  have l2e : (pad2 t.sec).length = 2 :=
    padZeros_length 2 _ (natDecChars_length 2 (by norm_num) _ (by norm_num; omega))
  show (pad4 t.year ++ '-' :: pad2 t.month ++ '-' :: pad2 t.mday ++
    'T' :: pad2 t.hour ++ ':' :: pad2 t.minute ++ ':' :: pad2 t.sec ++ ['Z']).length = 20
  simp [List.length_append, l4, l2a, l2b, l2c, l2d, l2e]

theorem strftimeISO_trailing (t : Tm) :
    ∃ cs, (strftimeISO t).data = cs ++ ['Z'] := by
  refine ⟨pad4 t.year ++ '-' :: pad2 t.month ++ '-' :: pad2 t.mday ++
    'T' :: pad2 t.hour ++ ':' :: pad2 t.minute ++ ':' :: pad2 t.sec, ?_⟩
  show pad4 t.year ++ '-' :: pad2 t.month ++ '-' :: pad2 t.mday ++
    'T' :: pad2 t.hour ++ ':' :: pad2 t.minute ++ ':' :: pad2 t.sec ++ ['Z'] = _
  simp

end TimeLemmas

section NoNewlineLemmas

theorem uEscape_no_newline (n : Nat) : ∀ c ∈ uEscape n, c ≠ '\n' := by
  intro c hc
  simp only [uEscape, List.mem_cons, List.not_mem_nil, or_false] at hc
  rcases hc with rfl | rfl | rfl | rfl | rfl | rfl
  · decide
  · decide
  · exact hexDigitChar_ne_newline _ (Nat.mod_lt _ (by norm_num))
  · exact hexDigitChar_ne_newline _ (Nat.mod_lt _ (by norm_num))
  · exact hexDigitChar_ne_newline _ (Nat.mod_lt _ (by norm_num))
  · exact hexDigitChar_ne_newline _ (Nat.mod_lt _ (by norm_num))

theorem escapeChar_no_newline (c : Char) : ∀ c' ∈ escapeChar c, c' ≠ '\n' := by
  intro c' hc'
  unfold escapeChar at hc'
  split_ifs at hc' with h1 h2 h3 h4 h5 h6 h7 h8 h9
  · rcases List.mem_cons.1 hc' with rfl | hc'
    · decide
    · rcases List.mem_singleton.1 hc' with rfl; decide
  · rcases List.mem_cons.1 hc' with rfl | hc'
    · decide
    · rcases List.mem_singleton.1 hc' with rfl; decide
  · rcases List.mem_cons.1 hc' with rfl | hc'
    · decide
    · rcases List.mem_singleton.1 hc' with rfl; decide
  · rcases List.mem_cons.1 hc' with rfl | hc'
    · decide
    · rcases List.mem_singleton.1 hc' with rfl; decide
  · rcases List.mem_cons.1 hc' with rfl | hc'
    · decide
    · rcases List.mem_singleton.1 hc' with rfl; decide
  · rcases List.mem_cons.1 hc' with rfl | hc'
    · decide
    · rcases List.mem_singleton.1 hc' with rfl; decide
  · rcases List.mem_cons.1 hc' with rfl | hc'
    · decide
    · rcases List.mem_singleton.1 hc' with rfl; decide
  · exact uEscape_no_newline _ c' hc'
  · rcases List.mem_append.1 hc' with hc' | hc'
    · exact uEscape_no_newline _ c' hc'
    · exact uEscape_no_newline _ c' hc'
  · rcases List.mem_singleton.1 hc' with rfl
    intro hcn
    subst hcn
    revert h8
    decide

theorem mem_escapeList (cs : List Char) (c : Char) (hc : c ∈ escapeList cs) :
    ∃ c0 ∈ cs, c ∈ escapeChar c0 := by
  induction cs with
  | nil => simp [escapeList] at hc
  | cons c0 rest ih =>
    have hstep : escapeList (c0 :: rest) = escapeChar c0 ++ escapeList rest := rfl
    rw [hstep] at hc
    rcases List.mem_append.1 hc with h | h
    · exact ⟨c0, by simp, h⟩
    · rcases ih h with ⟨c1, hc1, hm⟩
      exact ⟨c1, by simp [hc1], hm⟩

theorem render_no_newline (v : Value) : ∀ c ∈ v.render, c ≠ '\n' := by
  intro c hc
  cases v with
  | str s =>
    simp only [Value.render, List.mem_cons, List.mem_append,
      List.mem_singleton, List.not_mem_nil, or_false] at hc
    rcases hc with rfl | hc | rfl
    · decide
    · rcases mem_escapeList _ _ hc with ⟨c0, _, hm⟩
      exact escapeChar_no_newline c0 c hm
    · decide
  | int i => exact intDecChars_no_newline i c hc
  | bool b =>
    cases b <;> simp only [Value.render, List.mem_cons,
      List.not_mem_nil, or_false] at hc <;>
      rcases hc with rfl | rfl | rfl | rfl | rfl <;> decide
  | null =>
    simp only [Value.render, List.mem_cons, List.not_mem_nil, or_false] at hc
    rcases hc with rfl | rfl | rfl | rfl <;> decide
  | obj => simp [Value.render] at hc

theorem renderEntry_no_newline (kv : String × Value) :
    ∀ c ∈ renderEntry kv, c ≠ '\n' := by
  intro c hc
  simp only [renderEntry, List.mem_cons, List.mem_append] at hc
  rcases hc with rfl | hc | rfl | rfl | rfl | hc
  · decide
  · rcases mem_escapeList _ _ hc with ⟨c0, _, hm⟩
    exact escapeChar_no_newline c0 c hm
  · decide
  · decide
  · decide
  · exact render_no_newline kv.2 c hc

theorem joinComma_no_newline :
    ∀ (xs : List (List Char)), (∀ x ∈ xs, ∀ c ∈ x, c ≠ '\n') →
      ∀ c ∈ joinComma xs, c ≠ '\n'
  | [], _, c, hc => by simp [joinComma] at hc
  | [x], h, c, hc => h x (by simp) c (by simpa [joinComma] using hc)
  | x :: y :: xs, h, c, hc => by
    rw [joinComma] at hc
    rcases List.mem_append.1 hc with hc | hc
    · exact h x (by simp) c hc
    · rcases List.mem_cons.1 hc with rfl | hc
      · decide
      · rcases List.mem_cons.1 hc with rfl | hc
        · decide
        · exact joinComma_no_newline (y :: xs)
            (fun z hz => h z (by simp [List.mem_cons] at hz ⊢; tauto)) c hc

theorem renderObjChars_no_newline (d : List (String × Value)) :
    ∀ c ∈ renderObjChars d, c ≠ '\n' := by
  intro c hc
  simp only [renderObjChars, List.mem_cons, List.mem_append,
    List.mem_singleton, List.not_mem_nil, or_false] at hc
  rcases hc with rfl | hc | rfl
  · decide
  · refine joinComma_no_newline (d.map renderEntry) ?_ c hc
    intro x hx
    rcases List.mem_map.1 hx with ⟨kv, _, rfl⟩
    exact renderEntry_no_newline kv
  · decide

theorem jsonDumps_no_newline (d : List (String × Value)) (line : String)
    (h : jsonDumps d = .ok line) : '\n' ∉ line.data := by
  unfold jsonDumps at h
  split at h
  · intro hmem
    have hline : line = String.mk (renderObjChars d) := by
      cases h; rfl
    subst hline
    exact renderObjChars_no_newline d '\n' hmem rfl
  · cases h

end NoNewlineLemmas

section InitLemmas

theorem init_no_url (config : Config) (env : InitEnv)
    (h : config.alloy_url = none) :
    Logger.init config env = (Logger.bare config, []) := by
  unfold Logger.init
  rw [h]

theorem init_resource_fail (config : Config) (u : String) (env : InitEnv)
    (hu : config.alloy_url = some u) (hr : env.resource_raises = true) :
    Logger.init config env = (Logger.bare config, [diagOtel]) := by
  unfold Logger.init Logger.init_opentelemetry
  rw [hu]
  simp [hr]

theorem init_resource_ok (config : Config) (u : String) (env : InitEnv)
    (hu : config.alloy_url = some u) (hr : env.resource_raises = false) :
    Logger.init config env =
      ({ Logger.bare config with
          initialized := true
          tracer := .val (if env.tracing_raises then none else some ())
          request_counter := .val (if env.metrics_raises then none else some ())
          request_duration := .val (if env.metrics_raises then none else some ()) },
        (if env.tracing_raises then [diagTracing] else []) ++
          (if env.metrics_raises then [diagMetrics] else [])) := by
  unfold Logger.init Logger.init_opentelemetry Logger.init_tracing
    Logger.init_metrics
  rw [hu]
  rcases env with ⟨r, tr, mr⟩
  simp only at hr
  subst hr
  cases tr <;> cases mr <;> simp [Logger.bare]

theorem init_realTracer_imp_initialized (config : Config) (env : InitEnv)
    (h : (Logger.init config env).1.realTracer) :
    (Logger.init config env).1.initialized = true := by
  rcases hu : config.alloy_url with _ | u
  · rw [init_no_url config env hu] at h ⊢
    exact absurd h (by simp [Logger.realTracer, Logger.bare])
  · rcases hr : env.resource_raises with _ | _
    · rw [init_resource_ok config u env hu hr]
    · rw [init_resource_fail config u env hu hr] at h ⊢
      exact absurd h (by simp [Logger.realTracer, Logger.bare])

end InitLemmas

section RecordLemmas

theorem mem_dictKeys_baseRecord (s : Logger) (tm : Tm)
    (level message k : String) :
    k ∈ dictKeys (s.baseRecord tm level message) ↔ k ∈ baseKeys := by
  simp [Logger.baseRecord, dictKeys, baseKeys]

theorem dictLookup_baseRecord_not_base (s : Logger) (tm : Tm)
    (level message k : String) (h : k ∉ baseKeys) :
    dictLookup (s.baseRecord tm level message) k = none := by
  simp only [baseKeys, List.mem_cons, List.not_mem_nil, or_false,
    not_or] at h
  obtain ⟨h1, h2, h3, h4, h5, h6⟩ := h
  simp [Logger.baseRecord, dictLookup, Ne.symm h1, Ne.symm h2, Ne.symm h3,
    Ne.symm h4, Ne.symm h5, Ne.symm h6]

theorem buildRecord_not_recording (s : Logger) (tm : Tm)
    (level message : String) (fields : List (String × Value)) (amb : Ambient)
    (h : s.initialized = false ∨ amb.isRecording = false) :
    s.buildRecord tm level message fields amb =
      dictMerge (s.baseRecord tm level message) fields := by
  unfold Logger.buildRecord
  rcases h with h | h
  · simp [h]
  · cases hinit : s.initialized
    · simp
    · rcases hcur : amb.current with _ | c
      · simp [hcur]
      · have hrec : c.recording = false := by
          simpa [Ambient.isRecording, hcur] using h
        simp [hcur, hrec]

theorem buildRecord_recording (s : Logger) (tm : Tm)
    (level message : String) (fields : List (String × Value)) (amb : Ambient)
    (c : SpanCtx) (hinit : s.initialized = true) (hcur : amb.current = some c)
    (hrec : c.recording = true) :
    s.buildRecord tm level message fields amb =
      dictInsert
        (dictInsert (dictMerge (s.baseRecord tm level message) fields)
          "trace_id" (.str (pyFormatHex 32 c.trace_id)))
        "span_id" (.str (pyFormatHex 16 c.span_id)) := by
  unfold Logger.buildRecord
  simp [hinit, hcur, hrec]

theorem buildRecord_serializable (s : Logger) (tm : Tm)
    (level message : String) (fields : List (String × Value)) (amb : Ambient)
    (hf : allSerializable fields = true) :
    allSerializable (s.buildRecord tm level message fields amb) = true := by
  have hbase : allSerializable (s.baseRecord tm level message) = true := by
    simp [allSerializable, Logger.baseRecord, Value.serializable]
  have hm := allSerializable_dictMerge _ _ hbase hf
  rcases hrec : amb.isRecording with _ | _
  · rw [buildRecord_not_recording s tm level message fields amb (Or.inr hrec)]
    exact hm
  · cases hinit : s.initialized
    · rw [buildRecord_not_recording s tm level message fields amb (Or.inl hinit)]
      exact hm
    · rcases hcur : amb.current with _ | c
      · exact absurd hrec (by simp [Ambient.isRecording, hcur])
      · have hc : c.recording = true := by
          simpa [Ambient.isRecording, hcur] using hrec
        rw [buildRecord_recording s tm level message fields amb c hinit hcur hc]
        exact allSerializable_dictInsert _ _ _
          (allSerializable_dictInsert _ _ _ hm rfl) rfl

theorem logLine_ok (s : Logger) (tm : Tm) (level message : String)
    (fields : List (String × Value)) (amb : Ambient)
    (hf : allSerializable fields = true) :
    s.logLine tm level message fields amb =
      .ok [String.mk (renderObjChars
        (s.buildRecord tm level message fields amb))] := by
  have hall := buildRecord_serializable s tm level message fields amb hf
  unfold allSerializable at hall
  unfold Logger.logLine jsonDumps
  rw [if_pos hall]

theorem logLine_not_attributeError (s : Logger) (tm : Tm)
    (level message : String) (fields : List (String × Value))
    (amb : Ambient) :
    s.logLine tm level message fields amb ≠ .error .attributeError := by
  unfold Logger.logLine jsonDumps
  by_cases hall : ((s.buildRecord tm level message fields amb).all
      fun kv => kv.2.serializable) = true
  · rw [if_pos hall]
    simp
  · rw [if_neg hall]
    simp

theorem mem_dictKeys_buildRecord (s : Logger) (tm : Tm)
    (level message : String) (fields : List (String × Value)) (amb : Ambient)
    (k : String) :
    k ∈ dictKeys (s.buildRecord tm level message fields amb) ↔
      (k ∈ baseKeys ∨ k ∈ fields.map Prod.fst ∨
        ((s.initialized = true ∧ amb.isRecording = true) ∧
          (k = "trace_id" ∨ k = "span_id"))) := by
  rcases hrec : amb.isRecording with _ | _
  · rw [buildRecord_not_recording s tm level message fields amb (Or.inr hrec),
      mem_dictKeys_dictMerge]
    rw [mem_dictKeys_baseRecord]
    simp
  · cases hinit : s.initialized
    · rw [buildRecord_not_recording s tm level message fields amb (Or.inl hinit),
        mem_dictKeys_dictMerge]
      rw [mem_dictKeys_baseRecord]
      simp
    · rcases hcur : amb.current with _ | c
      · exact absurd hrec (by simp [Ambient.isRecording, hcur])
      · have hc : c.recording = true := by
          simpa [Ambient.isRecording, hcur] using hrec
        rw [buildRecord_recording s tm level message fields amb c hinit hcur hc,
          mem_dictKeys_dictInsert, mem_dictKeys_dictInsert,
          mem_dictKeys_dictMerge]
        rw [mem_dictKeys_baseRecord]
        simp only [true_and]
        tauto

theorem dictLookup_buildRecord_of_ne (s : Logger) (tm : Tm)
    (level message : String) (fields : List (String × Value)) (amb : Ambient)
    (k : String) (ht : k ≠ "trace_id") (hs : k ≠ "span_id") :
    dictLookup (s.buildRecord tm level message fields amb) k =
      dictLookup (dictMerge (s.baseRecord tm level message) fields) k := by
  rcases hrec : amb.isRecording with _ | _
  · rw [buildRecord_not_recording s tm level message fields amb (Or.inr hrec)]
  · cases hinit : s.initialized
    · rw [buildRecord_not_recording s tm level message fields amb (Or.inl hinit)]
    · rcases hcur : amb.current with _ | c
      · exact absurd hrec (by simp [Ambient.isRecording, hcur])
      · have hc : c.recording = true := by
          simpa [Ambient.isRecording, hcur] using hrec
        rw [buildRecord_recording s tm level message fields amb c hinit hcur hc,
          dictLookup_dictInsert_ne _ _ _ _ hs,
          dictLookup_dictInsert_ne _ _ _ _ ht]

end RecordLemmas

section OpLemmas

theorem add_span_event_ok (s : Logger) (event : String)
    (fields : List (String × Value)) (amb : Ambient) :
    ∃ out, s.add_span_event event fields amb = .ok out := by
  unfold Logger.add_span_event
  split
  · split
    · exact ⟨[], rfl⟩
    · split
      · exact ⟨_, rfl⟩
      · exact ⟨[], rfl⟩
  · exact ⟨[], rfl⟩

theorem add_span_attribute_ok (s : Logger) (key value : String)
    (amb : Ambient) :
    ∃ out, s.add_span_attribute key value amb = .ok out := by
  unfold Logger.add_span_attribute
  split
  · split
    · exact ⟨[], rfl⟩
    · split
      · exact ⟨_, rfl⟩
      · exact ⟨[], rfl⟩
  · exact ⟨[], rfl⟩

theorem init_handles_wf (config : Config) (env : InitEnv)
    (h : (Logger.init config env).1.initialized = true) :
    (Logger.init config env).1.tracer ≠ .unset ∧
    (Logger.init config env).1.request_counter ≠ .unset ∧
    (Logger.init config env).1.request_duration ≠ .unset := by
  rcases hu : config.alloy_url with _ | u
  · rw [init_no_url config env hu] at h
    exact absurd h (by simp [Logger.bare])
  · cases hr : env.resource_raises
    · rw [init_resource_ok config u env hu hr]
      cases env.tracing_raises <;> cases env.metrics_raises <;>
        exact ⟨by simp, by simp, by simp⟩
    · rw [init_resource_fail config u env hu hr] at h
      exact absurd h (by simp [Logger.bare])

theorem count_request_ok (s : Logger) (endpoint : String) (code : Int)
    (hwf : s.initialized = true → s.request_counter ≠ .unset) :
    ∃ out, s.count_request endpoint code = .ok out := by
  unfold Logger.count_request
  cases hinit : s.initialized
  · exact ⟨[], by simp⟩
  · rcases hc : s.request_counter with _ | a
    · exact absurd hc (hwf hinit)
    · cases a
      · exact ⟨[], by simp [Attr.read]⟩
      · exact ⟨[.counterAdd 1 [("endpoint", endpoint),
          ("status_code", toString code), ("service", s.service_name)]],
          by simp [Attr.read]⟩

theorem record_duration_ok (s : Logger) (endpoint : String) (d : Rat)
    (hwf : s.initialized = true → s.request_duration ≠ .unset) :
    ∃ out, s.record_duration endpoint d = .ok out := by
  unfold Logger.record_duration
  cases hinit : s.initialized
  · exact ⟨[], by simp⟩
  · rcases hc : s.request_duration with _ | a
    · exact absurd hc (hwf hinit)
    · cases a
      · exact ⟨[], by simp [Attr.read]⟩
      · exact ⟨[.histRecord d [("endpoint", endpoint),
          ("service", s.service_name)]], by simp [Attr.read]⟩

theorem start_span_ok (s : Logger) (op : String)
    (hwf : s.initialized = true → s.tracer ≠ .unset) :
    ∃ out, s.start_span op = .ok out := by
  unfold Logger.start_span
  cases hinit : s.initialized
  · exact ⟨(.dummy, []), by simp⟩
  · rcases hc : s.tracer with _ | a
    · exact absurd hc (hwf hinit)
    · cases a
      · exact ⟨(.dummy, []), by simp [Attr.read]⟩
      · exact ⟨(.real op [("service", s.service_name), ("version", s.version),
          ("environment", s.environment)],
          [.spanStart op, .spanSetAttributes [("service", s.service_name),
            ("version", s.version), ("environment", s.environment)]]),
          by simp [Attr.read]⟩

end OpLemmas

section MoreDictLemmas

theorem mem_dictInsert_self (d : List (String × Value)) (k : String)
    (v : Value) : (k, v) ∈ dictInsert d k v := by
  unfold dictInsert
  split
  · case isTrue h =>
    rcases List.any_eq_true.1 h with ⟨kv, hkv, hk⟩
    simp only [decide_eq_true_eq] at hk
    exact List.mem_map.2 ⟨kv, hkv, by simp [hk]⟩
  · exact List.mem_append.2 (Or.inr (by simp))

theorem mem_dictInsert_of_ne (d : List (String × Value)) (k : String)
    (v : Value) (k0 : String) (v0 : Value) (hne : k ≠ k0)
    (h : (k, v) ∈ d) : (k, v) ∈ dictInsert d k0 v0 := by
  unfold dictInsert
  split
  · exact List.mem_map.2 ⟨(k, v), h, by simp [hne]⟩
  · exact List.mem_append.2 (Or.inl h)

theorem nodup_keys_dictInsert (d : List (String × Value)) (k : String)
    (v : Value) (h : (d.map Prod.fst).Nodup) :
    ((dictInsert d k v).map Prod.fst).Nodup := by
  unfold dictInsert
  split
  · case isTrue hany =>
    have hkeys : (d.map (fun kv => if kv.1 = k then (k, v) else kv)).map
        Prod.fst = d.map Prod.fst := by
      rw [List.map_map]
      apply List.map_congr_left
      intro kv _
      by_cases hk : kv.1 = k
      · simp [hk]
      · simp [hk]
    rw [hkeys]
    exact h
  · case isFalse hany =>
    rw [List.map_append]
    have hknot : k ∉ d.map Prod.fst := by
      intro hmem
      rcases List.mem_map.1 hmem with ⟨kv, hkv, hk⟩
      exact hany (List.any_eq_true.2 ⟨kv, hkv, by simp [hk]⟩)
    simp [List.nodup_append, h, hknot]

end MoreDictLemmas

section Claims

/-- C10: for every Logger constructed without a collector endpoint, the
emitter handles (tracer, request counter, duration histogram) are never
created — the attribute slots stay unassigned — yet no façade operation
fails with a missing-attribute error, because every operation that would
touch an emitter handle first checks the initialization flag and
short-circuits before accessing the handle. -/
theorem c10_no_endpoint_handles_safe (config : Config) (env : InitEnv)
    (h : config.alloy_url = none) :
    (Logger.init config env).1.tracer = .unset ∧
    (Logger.init config env).1.request_counter = .unset ∧
    (Logger.init config env).1.request_duration = .unset ∧
    (∀ endpoint code,
      (Logger.init config env).1.count_request endpoint code = .ok []) ∧
    (∀ endpoint d,
      (Logger.init config env).1.record_duration endpoint d = .ok []) ∧
    (∀ op, (Logger.init config env).1.start_span op = .ok (.dummy, [])) ∧
    (∀ event fields amb,
      (Logger.init config env).1.add_span_event event fields amb = .ok []) ∧
    (∀ key value amb,
      (Logger.init config env).1.add_span_attribute key value amb = .ok []) ∧
    (∀ tm level message fields amb,
      (Logger.init config env).1.logLine tm level message fields amb
        ≠ .error .attributeError) := by
  rw [init_no_url config env h]
  refine ⟨rfl, rfl, rfl, ?_, ?_, ?_, ?_, ?_, ?_⟩
  · intro endpoint code
    simp [Logger.count_request, Logger.bare]
  · intro endpoint d
    simp [Logger.record_duration, Logger.bare]
  · intro op
    simp [Logger.start_span, Logger.bare]
  · intro event fields amb
    simp [Logger.add_span_event, Logger.bare]
  · intro key value amb
    simp [Logger.add_span_attribute, Logger.bare]
  · intro tm level message fields amb
    exact logLine_not_attributeError _ _ _ _ _ _

/-- Witness for C10 at a concrete endpoint-free configuration. -/
theorem c10_witness :
    (Logger.init ⟨"user-service", "1.0.0", "dev", none⟩
      ⟨false, false, false⟩).1.count_request "/healthz" 200 = .ok [] :=
  (c10_no_endpoint_handles_safe ⟨"user-service", "1.0.0", "dev", none⟩
    ⟨false, false, false⟩ rfl).2.2.2.1 "/healthz" 200

/-- C9: caller-supplied fields are merged into the log record after the
base keys, so a caller-supplied field named timestamp, level, message,
service, version, or environment replaces the façade's value for that key
in the emitted record — the base keys are not protected. -/
theorem c9_base_keys_unprotected (s : Logger) (tm : Tm)
    (level message k : String) (v : Value) (fields : List (String × Value))
    (amb : Ambient) (hk : k ∈ baseKeys) (hnd : (fields.map Prod.fst).Nodup)
    (hmem : (k, v) ∈ fields) :
    dictLookup (s.buildRecord tm level message fields amb) k = some v := by
  have hks : k ≠ "trace_id" ∧ k ≠ "span_id" := by
    simp only [baseKeys, List.mem_cons, List.not_mem_nil, or_false] at hk
    rcases hk with rfl | rfl | rfl | rfl | rfl | rfl <;>
      exact ⟨by decide, by decide⟩
  rw [dictLookup_buildRecord_of_ne s tm level message fields amb k
    hks.1 hks.2]
  exact dictLookup_dictMerge_mem _ _ _ _ hnd hmem

/-- Witness for C9: a caller field named level overrides the level the
façade computed. -/
theorem c9_witness :
    dictLookup ((Logger.init ⟨"user-service", "1.0.0", "dev", none⟩
        ⟨false, false, false⟩).1.buildRecord ⟨2026, 1, 2, 3, 4, 5⟩ "INFO" "m"
        [("level", Value.str "SNEAKY")] ⟨none⟩) "level"
      = some (Value.str "SNEAKY") :=
  c9_base_keys_unprotected _ ⟨2026, 1, 2, 3, 4, 5⟩ "INFO" "m" "level"
    (Value.str "SNEAKY") [("level", Value.str "SNEAKY")] ⟨none⟩
    (by decide) (by decide) (by decide)

/-- C6: count_request increments the counter by exactly 1 with dimensions
endpoint, stringified status code, and service name when the façade has a
live counter, and is a no-op otherwise; record_duration records exactly
one observation of the given value with dimensions endpoint and service
name when the façade has a live histogram, and is a no-op otherwise
(active = initialization completed with that emitter handle live). -/
theorem c6_metric_ops (config : Config) (env : InitEnv) (endpoint : String)
    (code : Int) (d : Rat) :
    (((Logger.init config env).1.initialized = true ∧
        (Logger.init config env).1.request_counter = .val (some ())) →
      (Logger.init config env).1.count_request endpoint code =
        .ok [.counterAdd 1 [("endpoint", endpoint),
          ("status_code", toString code),
          ("service", (Logger.init config env).1.service_name)]]) ∧
    (¬((Logger.init config env).1.initialized = true ∧
        (Logger.init config env).1.request_counter = .val (some ())) →
      (Logger.init config env).1.count_request endpoint code = .ok []) ∧
    (((Logger.init config env).1.initialized = true ∧
        (Logger.init config env).1.request_duration = .val (some ())) →
      (Logger.init config env).1.record_duration endpoint d =
        .ok [.histRecord d [("endpoint", endpoint),
          ("service", (Logger.init config env).1.service_name)]]) ∧
    (¬((Logger.init config env).1.initialized = true ∧
        (Logger.init config env).1.request_duration = .val (some ())) →
      (Logger.init config env).1.record_duration endpoint d = .ok []) := by
  rcases hu : config.alloy_url with _ | u
  · rw [init_no_url config env hu]
    refine ⟨?_, ?_, ?_, ?_⟩ <;> intro h <;>
      simp_all [Logger.count_request, Logger.record_duration, Logger.bare]
  · cases hr : env.resource_raises
    · rw [init_resource_ok config u env hu hr]
      cases hm : env.metrics_raises <;>
        refine ⟨?_, ?_, ?_, ?_⟩ <;> intro h <;>
          simp_all [Logger.count_request, Logger.record_duration,
            Attr.read, Logger.bare]
    · rw [init_resource_fail config u env hu hr]
      refine ⟨?_, ?_, ?_, ?_⟩ <;> intro h <;>
        simp_all [Logger.count_request, Logger.record_duration, Logger.bare]

/-- Witness for C6: with an endpoint and fully successful initialization
the counter is incremented once with the three dimensions. -/
theorem c6_witness :
    (Logger.init ⟨"user-service", "1.0.0", "dev", some "collector:4318"⟩
      ⟨false, false, false⟩).1.count_request "/work" 200 =
      .ok [.counterAdd 1 [("endpoint", "/work"), ("status_code", "200"),
        ("service", "user-service")]] :=
  (c6_metric_ops ⟨"user-service", "1.0.0", "dev", some "collector:4318"⟩
    ⟨false, false, false⟩ "/work" 200 0).1 ⟨rfl, rfl⟩

/-- C7: start_span returns a real span tagged with the service, version
and environment attributes when the façade has a live tracer, a no-op
DummySpan otherwise; in both cases the returned object supports scoped
enter/exit, and exit is reached even when the operation wrapped inside
the scope fails. -/
theorem c7_start_span (config : Config) (env : InitEnv) (op : String)
    (α : Type) :
    (((Logger.init config env).1.initialized = true ∧
        (Logger.init config env).1.tracer = .val (some ())) →
      (Logger.init config env).1.start_span op =
        .ok (.real op
          [("service", (Logger.init config env).1.service_name),
            ("version", (Logger.init config env).1.version),
            ("environment", (Logger.init config env).1.environment)],
          [.spanStart op,
            .spanSetAttributes
              [("service", (Logger.init config env).1.service_name),
                ("version", (Logger.init config env).1.version),
                ("environment", (Logger.init config env).1.environment)]])) ∧
    (¬((Logger.init config env).1.initialized = true ∧
        (Logger.init config env).1.tracer = .val (some ())) →
      (Logger.init config env).1.start_span op = .ok (.dummy, [])) ∧
    (∀ (res : Span) (eff : List Effect),
      (Logger.init config env).1.start_span op = .ok (res, eff) →
      ∀ body : Span → Except PyErr α,
        pyWith res body = (body res, res.exitEffects)) := by
  have hscoped : ∀ (res : Span) (body : Span → Except PyErr α),
      pyWith res body = (body res, res.exitEffects) := by
    intro res body
    unfold pyWith Span.enter
    cases body res <;> rfl
  refine ⟨?_, ?_, fun res eff _ body => hscoped res body⟩
  · intro h
    rcases hu : config.alloy_url with _ | u
    · rw [init_no_url config env hu] at h ⊢
      simp [Logger.bare] at h
    · cases hr : env.resource_raises
      · rw [init_resource_ok config u env hu hr] at h ⊢
        cases ht : env.tracing_raises
        · simp [Logger.start_span, Attr.read, Logger.bare]
        · rw [ht] at h
          simp [Logger.bare] at h
      · rw [init_resource_fail config u env hu hr] at h
        simp [Logger.bare] at h
  · intro h
    rcases hu : config.alloy_url with _ | u
    · rw [init_no_url config env hu]
      simp [Logger.start_span, Logger.bare]
    · cases hr : env.resource_raises
      · rw [init_resource_ok config u env hu hr] at h ⊢
        cases ht : env.tracing_raises
        · rw [ht] at h
          exact absurd ⟨rfl, rfl⟩ h
        · simp [Logger.start_span, Attr.read]
      · rw [init_resource_fail config u env hu hr]
        simp [Logger.start_span, Logger.bare]

/-- Witness for C7: a failing body still reaches exit on the dummy span
of a local-only façade. -/
theorem c7_witness :
    pyWith Span.dummy (fun _ => (Except.error .typeError : Except PyErr Nat))
      = (Except.error .typeError, Span.exitEffects .dummy) :=
  (c7_start_span ⟨"user-service", "1.0.0", "dev", none⟩ ⟨false, false, false⟩
    "op" Nat).2.2 .dummy [] rfl (fun _ => Except.error .typeError)

/-- C8: for the configuration (user-service, 1.0.0, dev, endpoint absent),
info "Service is ready" with no extra fields writes exactly one line —
the JSON object with exactly the keys timestamp, level INFO, message
"Service is ready", service, version, environment and no other keys — and
performs no network call; generally, for every configuration lacking a
collector endpoint every façade operation that would touch a trace or
metric emitter is a no-op and produces no error. -/
theorem c8_no_endpoint_example (config : Config) (env : InitEnv) (tm : Tm)
    (amb : Ambient) (h : config.alloy_url = none) :
    ((Logger.init ⟨"user-service", "1.0.0", "dev", none⟩ env).1.info tm
        "Service is ready" [] amb =
      .ok [String.mk (renderObjChars
        [("timestamp", .str (strftimeISO tm)), ("level", .str "INFO"),
          ("message", .str "Service is ready"),
          ("service", .str "user-service"), ("version", .str "1.0.0"),
          ("environment", .str "dev")])]) ∧
    ((Logger.init ⟨"user-service", "1.0.0", "dev", none⟩ env).1.buildRecord
        tm "INFO" "Service is ready" [] amb =
      [("timestamp", .str (strftimeISO tm)), ("level", .str "INFO"),
        ("message", .str "Service is ready"),
        ("service", .str "user-service"), ("version", .str "1.0.0"),
        ("environment", .str "dev")]) ∧
    (∀ endpoint code,
      (Logger.init config env).1.count_request endpoint code = .ok []) ∧
    (∀ endpoint d,
      (Logger.init config env).1.record_duration endpoint d = .ok []) ∧
    (∀ op, (Logger.init config env).1.start_span op = .ok (.dummy, [])) ∧
    (∀ event fields amb2,
      (Logger.init config env).1.add_span_event event fields amb2 = .ok []) ∧
    (∀ key value amb2,
      (Logger.init config env).1.add_span_attribute key value amb2
        = .ok []) := by
  refine ⟨rfl, rfl, ?_, ?_, ?_, ?_, ?_⟩
  · intro endpoint code
    rw [init_no_url config env h]
    simp [Logger.count_request, Logger.bare]
  · intro endpoint d
    rw [init_no_url config env h]
    simp [Logger.record_duration, Logger.bare]
  · intro op
    rw [init_no_url config env h]
    simp [Logger.start_span, Logger.bare]
  · intro event fields amb2
    rw [init_no_url config env h]
    simp [Logger.add_span_event, Logger.bare]
  · intro key value amb2
    rw [init_no_url config env h]
    simp [Logger.add_span_attribute, Logger.bare]

/-- Witness for C8 at a concrete time and ambient context. -/
theorem c8_witness :
    (Logger.init ⟨"user-service", "1.0.0", "dev", none⟩
      ⟨false, false, false⟩).1.info ⟨2026, 1, 2, 3, 4, 5⟩
      "Service is ready" [] ⟨none⟩ =
      .ok [String.mk (renderObjChars
        [("timestamp", .str (strftimeISO ⟨2026, 1, 2, 3, 4, 5⟩)),
          ("level", .str "INFO"), ("message", .str "Service is ready"),
          ("service", .str "user-service"), ("version", .str "1.0.0"),
          ("environment", .str "dev")])] :=
  (c8_no_endpoint_example ⟨"user-service", "1.0.0", "dev", none⟩
    ⟨false, false, false⟩ ⟨2026, 1, 2, 3, 4, 5⟩ ⟨none⟩ rfl).1

/-- C1 counterexample: a logging call whose caller-supplied fields hold a
value json.dumps cannot serialize raises TypeError out of the façade —
_log wraps nothing in a handler, so the claim that every internal error
is caught at the façade boundary is false. -/
theorem c1_counterexample :
    (Logger.init ⟨"user-service", "1.0.0", "dev", none⟩
      ⟨false, false, false⟩).1.info ⟨2026, 1, 2, 3, 4, 5⟩ "boom"
      [("payload", .obj)] ⟨none⟩ = .error .typeError := rfl

/-- C1 amended: no façade operation raises provided every caller-supplied
field value is JSON-serializable (the serialization failure of _log is
the one escape; the metric and span operations return normally on all
inputs). -/
theorem c1_fail_soft_amended (config : Config) (env : InitEnv) (tm : Tm)
    (message err : String) (fields : List (String × Value)) (amb : Ambient)
    (endpoint op event key value : String) (code : Int) (d : Rat)
    (hf : allSerializable fields = true) :
    (∃ out, (Logger.init config env).1.info tm message fields amb
      = .ok out) ∧
    (∃ out, (Logger.init config env).1.warn tm message fields amb
      = .ok out) ∧
    (∃ out, (Logger.init config env).1.debug tm message fields amb
      = .ok out) ∧
    (∃ out, (Logger.init config env).1.error tm message err fields amb
      = .ok out) ∧
    (∃ out, (Logger.init config env).1.count_request endpoint code
      = .ok out) ∧
    (∃ out, (Logger.init config env).1.record_duration endpoint d
      = .ok out) ∧
    (∃ out, (Logger.init config env).1.start_span op = .ok out) ∧
    (∃ out, (Logger.init config env).1.add_span_event event fields amb
      = .ok out) ∧
    (∃ out, (Logger.init config env).1.add_span_attribute key value amb
      = .ok out) := by
  have hwf := init_handles_wf config env
  refine ⟨?_, ?_, ?_, ?_, ?_, ?_, ?_, ?_, ?_⟩
  · exact ⟨_, logLine_ok _ _ _ _ _ _ hf⟩
  · exact ⟨_, logLine_ok _ _ _ _ _ _ hf⟩
  · exact ⟨_, logLine_ok _ _ _ _ _ _ hf⟩
  · exact ⟨_, logLine_ok _ _ _ _ _ _
      (allSerializable_dictInsert _ _ _ hf rfl)⟩
  · exact count_request_ok _ endpoint code (fun hi => (hwf hi).2.1)
  · exact record_duration_ok _ endpoint d (fun hi => (hwf hi).2.2)
  · exact start_span_ok _ op (fun hi => (hwf hi).1)
  · exact add_span_event_ok _ event fields amb
  · exact add_span_attribute_ok _ key value amb

/-- Witness for C1 amended at a concrete serializable field set. -/
theorem c1_witness :
    ∃ out, (Logger.init ⟨"user-service", "1.0.0", "dev", none⟩
      ⟨false, false, false⟩).1.info ⟨2026, 1, 2, 3, 4, 5⟩ "ready"
      [("k", Value.str "v")] ⟨none⟩ = .ok out :=
  (c1_fail_soft_amended ⟨"user-service", "1.0.0", "dev", none⟩
    ⟨false, false, false⟩ ⟨2026, 1, 2, 3, 4, 5⟩ "ready" "err"
    [("k", Value.str "v")] ⟨none⟩ "/e" "op" "ev" "key" "val" 200 0 rfl).1

/-- C2 counterexample: with an endpoint present, a failure while building
the trace emitter is caught inside _init_tracing (one diagnostic line),
yet initialization continues, succeeds for metrics, sets the initialized
flag, and a subsequent count_request still increments the counter over
the network — the façade is not in local-only mode. -/
theorem c2_counterexample :
    (Logger.init ⟨"user-service", "1.0.0", "dev", some "collector:4318"⟩
      ⟨false, true, false⟩).2 = [diagTracing] ∧
    (Logger.init ⟨"user-service", "1.0.0", "dev", some "collector:4318"⟩
      ⟨false, true, false⟩).1.count_request "/work" 200 =
      .ok [.counterAdd 1 [("endpoint", "/work"), ("status_code", "200"),
        ("service", "user-service")]] := ⟨rfl, rfl⟩

/-- C2 amended: a failure that reaches the construction boundary (resource
creation) leaves the façade permanently local-only with one diagnostic
line; a failure inside the trace (resp. metrics) initializer is caught
there with one diagnostic line per failed emitter and disables only that
emitter, while construction still completes, sets the initialized flag,
and leaves the other emitter (when built) active. -/
theorem c2_partial_fallback_amended (config : Config) (u : String)
    (env : InitEnv) (endpoint op : String) (code : Int) (d : Rat)
    (hu : config.alloy_url = some u) :
    (env.resource_raises = true →
      (Logger.init config env).1 = Logger.bare config ∧
      (Logger.init config env).2 = [diagOtel] ∧
      (Logger.init config env).1.count_request endpoint code = .ok [] ∧
      (Logger.init config env).1.record_duration endpoint d = .ok [] ∧
      (Logger.init config env).1.start_span op = .ok (.dummy, [])) ∧
    (env.resource_raises = false →
      (Logger.init config env).1.initialized = true ∧
      (Logger.init config env).2 =
        (if env.tracing_raises then [diagTracing] else []) ++
          (if env.metrics_raises then [diagMetrics] else []) ∧
      (Logger.init config env).1.start_span op =
        .ok (if env.tracing_raises then (.dummy, [])
          else (.real op [("service", config.service_name),
              ("version", config.version),
              ("environment", config.environment)],
            [.spanStart op, .spanSetAttributes
              [("service", config.service_name),
                ("version", config.version),
                ("environment", config.environment)]])) ∧
      (Logger.init config env).1.count_request endpoint code =
        .ok (if env.metrics_raises then []
          else [.counterAdd 1 [("endpoint", endpoint),
            ("status_code", toString code),
            ("service", config.service_name)]]) ∧
      (Logger.init config env).1.record_duration endpoint d =
        .ok (if env.metrics_raises then []
          else [.histRecord d [("endpoint", endpoint),
            ("service", config.service_name)]])) := by
  constructor
  · intro hr
    rw [init_resource_fail config u env hu hr]
    refine ⟨rfl, rfl, ?_, ?_, ?_⟩ <;>
      simp [Logger.count_request, Logger.record_duration,
        Logger.start_span, Logger.bare]
  · intro hr
    rw [init_resource_ok config u env hu hr]
    cases ht : env.tracing_raises <;> cases hm : env.metrics_raises <;>
      refine ⟨rfl, rfl, ?_, ?_, ?_⟩ <;>
        simp [Logger.count_request, Logger.record_duration,
          Logger.start_span, Attr.read, Logger.bare]

/-- Witness for C2 amended: a resource failure at the boundary does leave
the façade local-only with the single diagnostic line. -/
theorem c2_witness :
    (Logger.init ⟨"user-service", "1.0.0", "dev", some "collector:4318"⟩
      ⟨true, false, false⟩).2 = [diagOtel] :=
  ((c2_partial_fallback_amended
    ⟨"user-service", "1.0.0", "dev", some "collector:4318"⟩
    "collector:4318" ⟨true, false, false⟩ "/e" "op" 200 0 rfl).1 rfl).2.1

/-- C4 counterexample: a caller-supplied field named trace_id puts a
trace_id key into the record of a local-only logger although no recording
span is active, and its value is not a 32-character identifier — the
record contains a trace identifier without a recording span, so the
biconditional of the claim fails. -/
theorem c4_counterexample :
    dictLookup ((Logger.init ⟨"user-service", "1.0.0", "dev", none⟩
        ⟨false, false, false⟩).1.buildRecord ⟨2026, 1, 2, 3, 4, 5⟩ "INFO"
        "m" [("trace_id", Value.str "boom")] ⟨none⟩) "trace_id"
      = some (Value.str "boom") ∧
    (⟨none⟩ : Ambient).isRecording = false := ⟨rfl, rfl⟩

/-- C4 amended: provided the caller-supplied fields do not themselves use
the reserved keys trace_id and span_id, a record emitted by a constructed
façade contains trace_id and span_id iff a recording span is active (a
recording span can exist only when the façade installed a real tracer,
which forces the initialized flag); when present they are the zero-padded
32- and 16-character lowercase hexadecimal context identifiers. -/
theorem c4_trace_ids_amended (config : Config) (env : InitEnv) (tm : Tm)
    (level message : String) (fields : List (String × Value)) (amb : Ambient)
    (hreach : reachableAmbient (Logger.init config env).1 amb)
    (hnt : "trace_id" ∉ fields.map Prod.fst)
    (hns : "span_id" ∉ fields.map Prod.fst)
    (hbound : ∀ c, amb.current = some c →
      c.trace_id < 16 ^ 32 ∧ c.span_id < 16 ^ 16) :
    (amb.isRecording = true →
      ∃ c, amb.current = some c ∧
        dictLookup ((Logger.init config env).1.buildRecord tm level message
          fields amb) "trace_id"
          = some (.str (pyFormatHex 32 c.trace_id)) ∧
        dictLookup ((Logger.init config env).1.buildRecord tm level message
          fields amb) "span_id"
          = some (.str (pyFormatHex 16 c.span_id)) ∧
        (pyFormatHex 32 c.trace_id).length = 32 ∧
        (∀ ch ∈ (pyFormatHex 32 c.trace_id).data, isHexLower ch = true) ∧
        (pyFormatHex 16 c.span_id).length = 16 ∧
        (∀ ch ∈ (pyFormatHex 16 c.span_id).data, isHexLower ch = true)) ∧
    (amb.isRecording = false →
      dictLookup ((Logger.init config env).1.buildRecord tm level message
        fields amb) "trace_id" = none ∧
      dictLookup ((Logger.init config env).1.buildRecord tm level message
        fields amb) "span_id" = none) := by
  constructor
  · intro hrec
    have hinit : (Logger.init config env).1.initialized = true :=
      init_realTracer_imp_initialized config env (hreach hrec)
    rcases hcur : amb.current with _ | c
    · exact absurd hrec (by simp [Ambient.isRecording, hcur])
    · have hcrec : c.recording = true := by
        simpa [Ambient.isRecording, hcur] using hrec
      refine ⟨c, rfl, ?_, ?_, ?_, ?_, ?_, ?_⟩
      · rw [buildRecord_recording _ _ _ _ _ _ c hinit hcur hcrec,
          dictLookup_dictInsert_ne _ _ _ _ (by decide),
          dictLookup_dictInsert_self]
      · rw [buildRecord_recording _ _ _ _ _ _ c hinit hcur hcrec,
          dictLookup_dictInsert_self]
      · exact pyFormatHex_length 32 _ (hbound c hcur).1
      · exact pyFormatHex_chars 32 _
      · exact pyFormatHex_length 16 _ (hbound c hcur).2
      · exact pyFormatHex_chars 16 _
  · intro hrec
    rw [buildRecord_not_recording _ _ _ _ _ _ (Or.inr hrec)]
    constructor
    · rw [dictLookup_dictMerge_not_mem _ _ _ hnt]
      exact dictLookup_baseRecord_not_base _ _ _ _ _ (by decide)
    · rw [dictLookup_dictMerge_not_mem _ _ _ hns]
      exact dictLookup_baseRecord_not_base _ _ _ _ _ (by decide)

/-- Witness for C4 amended on a recording context with identifier 255. -/
theorem c4_witness :
    dictLookup ((Logger.init ⟨"user-service", "1.0.0", "dev",
        some "collector:4318"⟩ ⟨false, false, false⟩).1.buildRecord
        ⟨2026, 1, 2, 3, 4, 5⟩ "INFO" "m" [] ⟨some ⟨true, 255, 10⟩⟩)
      "trace_id" = some (.str (pyFormatHex 32 255)) := by
  obtain ⟨c, hc, ht, -⟩ := (c4_trace_ids_amended
    ⟨"user-service", "1.0.0", "dev", some "collector:4318"⟩
    ⟨false, false, false⟩ ⟨2026, 1, 2, 3, 4, 5⟩ "INFO" "m" []
    ⟨some ⟨true, 255, 10⟩⟩ (fun _ => rfl) (by decide) (by decide)
    (fun c hc => by cases hc; exact ⟨by norm_num, by norm_num⟩)).1 rfl
  cases hc
  exact ht

/-- C5 counterexample: with a recording span active, a caller-supplied
field named trace_id (a name different from the reserved key error) does
not appear unchanged in the emitted error record — it is overwritten by
the hexadecimal trace identifier. -/
theorem c5_counterexample :
    dictLookup ((Logger.init ⟨"user-service", "1.0.0", "dev",
        some "collector:4318"⟩ ⟨false, false, false⟩).1.buildRecord
        ⟨2026, 1, 2, 3, 4, 5⟩ "ERROR" "m"
        (dictInsert [("trace_id", Value.str "caller-value")] "error"
          (Value.str "boom")) ⟨some ⟨true, 255, 10⟩⟩) "trace_id"
      = some (Value.str "000000000000000000000000000000ff") ∧
    Value.str "000000000000000000000000000000ff"
      ≠ Value.str "caller-value" := by
  constructor
  · rfl
  · decide

/-- C5 amended: error always records the stringified failure under the
reserved key error (overwriting even a caller-supplied field of that
name), and every caller-supplied field whose name differs from error
appears unchanged in the emitted record, except fields named trace_id or
span_id, which are overwritten by the context identifiers when a
recording span is active; when no recording span is active those fields
appear unchanged too. -/
theorem c5_error_field_amended (s : Logger) (tm : Tm) (message err : String)
    (fields : List (String × Value)) (amb : Ambient) (k : String) (v : Value)
    (hnd : (fields.map Prod.fst).Nodup) :
    dictLookup (s.buildRecord tm "ERROR" message
      (dictInsert fields "error" (.str err)) amb) "error"
      = some (.str err) ∧
    ((k, v) ∈ fields → k ≠ "error" → k ≠ "trace_id" → k ≠ "span_id" →
      dictLookup (s.buildRecord tm "ERROR" message
        (dictInsert fields "error" (.str err)) amb) k = some v) ∧
    (amb.isRecording = false → (k, v) ∈ fields → k ≠ "error" →
      dictLookup (s.buildRecord tm "ERROR" message
        (dictInsert fields "error" (.str err)) amb) k = some v) ∧
    Logger.error s tm message err fields amb =
      s.logLine tm "ERROR" message (dictInsert fields "error" (.str err))
        amb := by
  have hnd' : ((dictInsert fields "error" (.str err)).map Prod.fst).Nodup :=
    nodup_keys_dictInsert fields "error" (.str err) hnd
  refine ⟨?_, ?_, ?_, rfl⟩
  · rw [dictLookup_buildRecord_of_ne _ _ _ _ _ _ _ (by decide) (by decide)]
    exact dictLookup_dictMerge_mem _ _ _ _ hnd' (mem_dictInsert_self _ _ _)
  · intro hmem hke hkt hks
    rw [dictLookup_buildRecord_of_ne _ _ _ _ _ _ _ hkt hks]
    exact dictLookup_dictMerge_mem _ _ _ _ hnd'
      (mem_dictInsert_of_ne _ _ _ _ _ hke hmem)
  · intro hrec hmem hke
    rw [buildRecord_not_recording _ _ _ _ _ _ (Or.inr hrec)]
    exact dictLookup_dictMerge_mem _ _ _ _ hnd'
      (mem_dictInsert_of_ne _ _ _ _ _ hke hmem)

/-- Witness for C5 amended: a non-reserved caller field survives the
merge unchanged and the error key carries the stringified failure. -/
theorem c5_witness :
    dictLookup ((Logger.bare ⟨"s", "v", "e", none⟩).buildRecord
      ⟨2026, 1, 2, 3, 4, 5⟩ "ERROR" "m"
      (dictInsert [("user_id", Value.str "u42")] "error" (Value.str "boom"))
      ⟨none⟩) "user_id" = some (Value.str "u42") :=
  (c5_error_field_amended (Logger.bare ⟨"s", "v", "e", none⟩)
    ⟨2026, 1, 2, 3, 4, 5⟩ "m" "boom" [("user_id", Value.str "u42")] ⟨none⟩
    "user_id" (Value.str "u42") (by decide)).2.1 (by decide) (by decide)
    (by decide) (by decide)

/-- C3: every logging call (info, warn, debug and error all route through
_log with the same record assembly) writes exactly one line to standard
output — the JSON rendering of the assembled record, free of newline
characters; the record's keys are exactly the six base keys, plus one key
per caller-supplied field, plus trace_id and span_id exactly when a
recording span is active (for a constructed façade and a producible
ambient context); and the timestamp value is the UTC second-precision
ISO-8601 string with trailing Z for the call time — 20 characters ending
in Z for in-range gmtime fields. -/
theorem c3_log_line_shape (config : Config) (env : InitEnv) (tm : Tm)
    (level message : String) (fields : List (String × Value)) (amb : Ambient)
    (hf : allSerializable fields = true)
    (hreach : reachableAmbient (Logger.init config env).1 amb)
    (hy : tm.year < 10000) (hmo : tm.month < 100) (hd : tm.mday < 100)
    (hh : tm.hour < 100) (hmi : tm.minute < 100) (hs : tm.sec < 100) :
    ((Logger.init config env).1.logLine tm level message fields amb =
      .ok [String.mk (renderObjChars ((Logger.init config env).1.buildRecord
        tm level message fields amb))]) ∧
    '\n' ∉ (String.mk (renderObjChars ((Logger.init config env).1.buildRecord
      tm level message fields amb))).data ∧
    (∀ k, k ∈ dictKeys ((Logger.init config env).1.buildRecord tm level
        message fields amb) ↔
      (k ∈ baseKeys ∨ k ∈ fields.map Prod.fst ∨
        (amb.isRecording = true ∧ (k = "trace_id" ∨ k = "span_id")))) ∧
    ("timestamp" ∉ fields.map Prod.fst →
      dictLookup ((Logger.init config env).1.buildRecord tm level message
        fields amb) "timestamp" = some (.str (strftimeISO tm))) ∧
    (strftimeISO tm).length = 20 ∧
    (∃ cs, (strftimeISO tm).data = cs ++ ['Z']) ∧
    ((Logger.init config env).1.info tm message fields amb =
      (Logger.init config env).1.logLine tm "INFO" message fields amb) ∧
    ((Logger.init config env).1.warn tm message fields amb =
      (Logger.init config env).1.logLine tm "WARN" message fields amb) ∧
    ((Logger.init config env).1.debug tm message fields amb =
      (Logger.init config env).1.logLine tm "DEBUG" message fields amb) ∧
    (∀ err, (Logger.init config env).1.error tm message err fields amb =
      (Logger.init config env).1.logLine tm "ERROR" message
        (dictInsert fields "error" (.str err)) amb) := by
  have hiff : ((Logger.init config env).1.initialized = true ∧
      amb.isRecording = true) ↔ amb.isRecording = true := by
    constructor
    · exact fun h => h.2
    · intro h
      exact ⟨init_realTracer_imp_initialized config env (hreach h), h⟩
  refine ⟨logLine_ok _ _ _ _ _ _ hf, ?_, ?_, ?_,
    strftimeISO_length tm hy hmo hd hh hmi hs, strftimeISO_trailing tm,
    rfl, rfl, rfl, fun err => rfl⟩
  · intro hmem
    exact renderObjChars_no_newline _ '\n' hmem rfl
  · intro k
    rw [mem_dictKeys_buildRecord, hiff]
  · intro hts
    rw [dictLookup_buildRecord_of_ne _ _ _ _ _ _ _ (by decide) (by decide),
      dictLookup_dictMerge_not_mem _ _ _ hts]
    rfl

/-- Witness for C3 at a concrete call on an endpoint-free logger. -/
theorem c3_witness :
    (Logger.init ⟨"user-service", "1.0.0", "dev", none⟩
      ⟨false, false, false⟩).1.logLine ⟨2026, 1, 2, 3, 4, 5⟩ "INFO" "hello"
      [("k", Value.str "v")] ⟨none⟩ =
      .ok [String.mk (renderObjChars ((Logger.init
        ⟨"user-service", "1.0.0", "dev", none⟩
        ⟨false, false, false⟩).1.buildRecord ⟨2026, 1, 2, 3, 4, 5⟩ "INFO"
        "hello" [("k", Value.str "v")] ⟨none⟩))] :=
  (c3_log_line_shape ⟨"user-service", "1.0.0", "dev", none⟩
    ⟨false, false, false⟩ ⟨2026, 1, 2, 3, 4, 5⟩ "INFO" "hello"
    [("k", Value.str "v")] ⟨none⟩ rfl
    (fun h => absurd h (by decide)) (by norm_num) (by norm_num)
    (by norm_num) (by norm_num) (by norm_num) (by norm_num)).1

end Claims

end FaidonLogging
